import Mathlib

/-!
Verification of the support-email enrichment pipeline (`src/main.py`).

The per-row text pipeline is embedded shallowly: strings are Lean `String`s
(lists of characters), Python string primitives (`str.split()`, `str.strip()`,
`str.lower()`, substring containment, the three regex operations used by
`clean_text`) are modelled as executable functions on `List Char`, and the
optional OpenAI call is abstracted by an oracle describing the outcome of the
two network exchanges of a row.  The whitespace set is the ASCII part of
Python's whitespace (space, tab, LF, CR, VT, FF); all texts involved are ASCII.
-/

/-- ASCII whitespace as used by Python's `str.split()` / `str.strip()`. -/
def isPySpace (c : Char) : Bool :=
  c = ' ' || c = '\t' || c = '\n' || c = '\r' || c = '\x0b' || c = '\x0c'

/-- Python `str.lower()` restricted to ASCII, as a list of characters. -/
def pyLower (s : String) : List Char :=
  s.data.map Char.toLower

/-- Python substring containment `pat in t` on character lists. -/
def inStr (pat : List Char) : List Char → Bool
  | [] => pat.isPrefixOf []
  | c :: cs => pat.isPrefixOf (c :: cs) || inStr pat cs

/-- Accumulator loop of Python `str.split()` (split on whitespace runs,
dropping empty pieces); `acc` holds the characters of the pending token in
reverse order. -/
def splitWsAcc : List Char → List Char → List (List Char)
  | [], acc => if acc.isEmpty then [] else [acc.reverse]
  | c :: cs, acc =>
    if isPySpace c then
      (if acc.isEmpty then splitWsAcc cs [] else acc.reverse :: splitWsAcc cs [])
    else splitWsAcc cs (c :: acc)

/-- Python `str.split()` with no argument. -/
def splitWs (l : List Char) : List (List Char) :=
  splitWsAcc l []

/-- Python `' '.join(ts)`: interleave a single space between the pieces. -/
def joinSp : List (List Char) → List Char
  | [] => []
  | [t] => t
  | t :: ts => t ++ ' ' :: joinSp ts

/-- Python `str.strip()`: drop leading and trailing whitespace. -/
def stripWs (l : List Char) : List Char :=
  ((l.dropWhile isPySpace).reverse.dropWhile isPySpace).reverse

/-- `re.sub(r"\r\n", "\n", text)`: every CRLF pair becomes a single LF,
scanning left to right. -/
def replCRLF : List Char → List Char
  | '\r' :: '\n' :: cs => '\n' :: replCRLF cs
  | c :: cs => c :: replCRLF cs
  | [] => []

/-- Loop of `re.sub(r"\n{2,}", "\n\n", text)`: `k` counts the newlines already
seen in the current run; a run of `k` newlines contributes `min k 2` newlines
to the output. -/
def collapseNLAux : List Char → Nat → List Char
  | [], _ => []
  | c :: cs, k =>
    if c = '\n' then
      (if k < 2 then '\n' :: collapseNLAux cs (k + 1) else collapseNLAux cs (k + 1))
    else c :: collapseNLAux cs 0

/-- `re.sub(r"\n{2,}", "\n\n", text)`: collapse every run of two or more
newlines to exactly two. -/
def collapseNL (l : List Char) : List Char :=
  collapseNLAux l 0

/-- The four literal alternatives of the signature-boundary regex
`\n--\n|\nRegards,|\nBest,|\nThanks,` from `clean_text`. -/
def boundaryPats : List (List Char) :=
  ["\n--\n".data, "\nRegards,".data, "\nBest,".data, "\nThanks,".data]

/-- Does one of the boundary alternatives match at the head of `l`? -/
def isBoundaryAt (l : List Char) : Bool :=
  boundaryPats.any (fun p => p.isPrefixOf l)

/-- `re.split(boundary, text)[0]`: the text before the leftmost match of the
boundary regex (the whole text when there is no match). -/
def truncAtBoundary : List Char → List Char
  | [] => []
  | c :: cs => if isBoundaryAt (c :: cs) then [] else c :: truncAtBoundary cs

/-- The first two normalisation steps of `clean_text` (CRLF to LF, newline-run
collapsing), before the boundary cut. -/
def normNewlines (raw : String) : List Char :=
  collapseNL (replCRLF raw.data)

/-- `clean_text` from `src/main.py` (the `pd.isna` guard is vacuous on the
string-valued rows produced by the `fillna('')` of `main`): normalise CRLF,
collapse newline runs, cut at the first signature boundary, strip. -/
def clean_text (text : String) : String :=
  String.mk (stripWs (truncAtBoundary (normNewlines text)))

/-- High-urgency keyword list of `detect_urgency`. -/
def kwHigh : List String := ["urgent", "critical", "immediate", "downtime", "blocked"]

/-- Medium-urgency keyword list of `detect_urgency`. -/
def kwMedium : List String := ["help", "support", "issue", "problem", "error"]

/-- `detect_urgency` from `src/main.py`. -/
def detect_urgency (text : String) : String :=
  if kwHigh.any (fun k => inStr k.data (pyLower text)) then "high"
  else if kwMedium.any (fun k => inStr k.data (pyLower text)) then "medium"
  else "low"

/-- `detect_topic` from `src/main.py`: the `or`-chains of the source,
evaluated top to bottom. -/
def detect_topic (text : String) : String :=
  if inStr "billing".data (pyLower text) || inStr "refund".data (pyLower text)
      || inStr "pricing".data (pyLower text) then "billing/refund"
  else if inStr "login".data (pyLower text) || inStr "password".data (pyLower text)
      || inStr "account".data (pyLower text) || inStr "access".data (pyLower text) then
    "login/account"
  else if inStr "integration".data (pyLower text) || inStr "api".data (pyLower text)
      || inStr "crm".data (pyLower text) then "integration/api"
  else if inStr "downtime".data (pyLower text) || inStr "system".data (pyLower text)
      || inStr "outage".data (pyLower text) then "system/downtime"
  else "general"

/-- Positive keyword list of `simple_sentiment`. -/
def kwPositive : List String := ["thank", "great", "appreciate", "good", "love"]

/-- Negative keyword list of `simple_sentiment`. -/
def kwNegative : List String := ["angry", "bad", "worst", "unacceptable", "terrible"]

/-- `simple_sentiment` from `src/main.py`. -/
def simple_sentiment (text : String) : String :=
  if kwPositive.any (fun k => inStr k.data (pyLower text)) then "positive"
  else if kwNegative.any (fun k => inStr k.data (pyLower text)) then "negative"
  else "neutral"

/-- `summarize` from `src/main.py`:
`' '.join(words[:max_words]) + ('...' if len(words) > max_words else '')`.
The call sites use the default bound `max_words = 25`. -/
def summarize (text : String) (max_words : Nat) : String :=
  String.mk (joinSp ((splitWs text.data).take max_words) ++
    (if max_words < (splitWs text.data).length then "...".data else []))

/-- `generate_reply` from `src/main.py`; the row dictionary built at the call
site carries exactly the keys `sender`, `subject_topic`, `likely_urgency`. -/
def generate_reply (sender subject_topic likely_urgency : String) : String :=
  if likely_urgency = "high" then
    "Dear " ++ sender ++
      ",\n\nWe understand your issue is urgent regarding " ++ subject_topic ++
      ". Our team is already working on it and will update you shortly.\n\nBest regards,\nSupport Team"
  else if likely_urgency = "medium" then
    "Dear " ++ sender ++
      ",\n\nThank you for reaching out about " ++ subject_topic ++
      ". We are reviewing your request and will get back soon.\n\nBest regards,\nSupport Team"
  else
    "Dear " ++ sender ++
      ",\n\nThanks for contacting us. We noted your query about " ++ subject_topic ++
      " and will respond in due course.\n\nBest regards,\nSupport Team"

/-- Outcome of one `openai.ChatCompletion.create` exchange: `failure` models a
raised exception, `ok content` a returned response where `content` is the
message text when `resp` and `resp.choices` are truthy and `none` otherwise. -/
inductive ApiResult where
  | failure
  | ok (content : Option String)
deriving DecidableEq

/-- Python `str.strip()` on a `String`. -/
def pyStrip (s : String) : String :=
  String.mk (stripWs s.data)

/-- `try_openai_summary_and_reply` from `src/main.py`.  `key` is
`os.environ.get('OPENAI_API_KEY')`; `a1` and `a2` are the outcomes of the two
exchanges for this row (`text` only feeds the prompts).  An exception in
either exchange is caught by the surrounding `try` and yields `(None, None)`;
otherwise each field is the stripped content when present, else `None`. -/
def try_openai_summary_and_reply (key : Option String) (a1 a2 : ApiResult)
    (text : String) : Option String × Option String :=
  match key with
  | none => (none, none)
  | some _ =>
    match a1, a2 with
    | ApiResult.failure, _ => (none, none)
    | _, ApiResult.failure => (none, none)
    | ApiResult.ok c1, ApiResult.ok c2 => (c1.map pyStrip, c2.map pyStrip)

/-- The urgency ranking dictionary `{'low':0,'medium':1,'high':2}` of `main`;
lookups only ever happen at the three keys, where the final branch is dead. -/
def pyUrgOrder (u : String) : Nat :=
  if u = "low" then 0 else if u = "medium" then 1 else if u = "high" then 2 else 0

/-- One input row: the `sender`, `subject`, `body` columns after the
`fillna('')` defaulting of `main`. -/
structure InputRecord where
  sender : String
  subject : String
  body : String
deriving DecidableEq

/-- One output row of `main`: the input columns plus the derived columns. -/
structure EnrichedRecord where
  sender : String
  subject : String
  body : String
  clean_body : String
  urg_subj : String
  urg_body : String
  likely_urgency : String
  subject_topic : String
  sentiment : String
  summary : String
  auto_reply : String
deriving DecidableEq

/-- The per-row enrichment performed by `main` (lines 94-114 of
`src/main.py`): derives every output column of one row, asking the external
generator first and falling back to the deterministic path on `None`. -/
def enrichRow (key : Option String) (a1 a2 : ApiResult) (r : InputRecord) :
    EnrichedRecord :=
  let clean_body := clean_text r.body
  let urg_subj := detect_urgency r.subject
  let urg_body := detect_urgency clean_body
  let likely_urgency :=
    if pyUrgOrder urg_body ≤ pyUrgOrder urg_subj then urg_subj else urg_body
  let subject_topic := detect_topic r.subject
  let sentiment := simple_sentiment clean_body
  let p := try_openai_summary_and_reply key a1 a2 clean_body
  let summary := match p.1 with
    | some s => s
    | none => summarize clean_body 25
  let auto_reply := match p.2 with
    | some rep => rep
    | none => generate_reply r.sender subject_topic likely_urgency
  { sender := r.sender, subject := r.subject, body := r.body,
    clean_body := clean_body, urg_subj := urg_subj, urg_body := urg_body,
    likely_urgency := likely_urgency, subject_topic := subject_topic,
    sentiment := sentiment, summary := summary, auto_reply := auto_reply }

/-- Spec-side rank of an urgency label under the order low < medium < high. -/
def urgRank (u : String) : Nat :=
  if u = "low" then 0 else if u = "medium" then 1 else 2

/-- Spec-side maximum of two urgency labels under low < medium < high (on a
tie the two labels are equal, so either operand serves). -/
def urgMax (a b : String) : String :=
  if urgRank a < urgRank b then b else a

/-- Spec-side declarative topic table: keyword groups in priority order. -/
def topicTable : List (List String × String) :=
  [(["billing", "refund", "pricing"], "billing/refund"),
   (["login", "password", "account", "access"], "login/account"),
   (["integration", "api", "crm"], "integration/api"),
   (["downtime", "system", "outage"], "system/downtime")]

/-- Does some keyword of the group occur in the (lowered) text? -/
def matchesGroup (t : List Char) (kws : List String) : Bool :=
  kws.any (fun k => inStr k.data t)

/-- Spec-side topic classifier: label of the first matching group in the
priority order of the table, else `general`. -/
def detectTopicSpec (text : String) : String :=
  match topicTable.find? (fun g => matchesGroup (pyLower text) g.1) with
  | some g => g.2
  | none => "general"

/-- Spec §6 high-urgency reply template with substitutions applied. -/
def templateHigh (sender topic : String) : String :=
  "Dear " ++ sender ++ ",\n\nWe understand your issue is urgent regarding " ++
    topic ++
    ". Our team is already working on it and will update you shortly.\n\nBest regards,\nSupport Team"

/-- Spec §6 medium-urgency reply template with substitutions applied. -/
def templateMedium (sender topic : String) : String :=
  "Dear " ++ sender ++ ",\n\nThank you for reaching out about " ++ topic ++
    ". We are reviewing your request and will get back soon.\n\nBest regards,\nSupport Team"

/-- Spec §6 low/default reply template with substitutions applied. -/
def templateLow (sender topic : String) : String :=
  "Dear " ++ sender ++ ",\n\nThanks for contacting us. We noted your query about " ++
    topic ++ " and will respond in due course.\n\nBest regards,\nSupport Team"

/-- Spec-side reply selection: one of the three §6 templates keyed by urgency
(high, medium, else-default). -/
def replySpec (sender topic urgency : String) : String :=
  if urgency = "high" then templateHigh sender topic
  else if urgency = "medium" then templateMedium sender topic
  else templateLow sender topic

/-! ## Helper lemmas -/

theorem detect_urgency_mem (s : String) :
    detect_urgency s = "high" ∨ detect_urgency s = "medium" ∨ detect_urgency s = "low" := by
  unfold detect_urgency
  split
  · exact Or.inl rfl
  · split
    · exact Or.inr (Or.inl rfl)
    · exact Or.inr (Or.inr rfl)

theorem detect_topic_mem (s : String) :
    detect_topic s = "billing/refund" ∨ detect_topic s = "login/account" ∨
      detect_topic s = "integration/api" ∨ detect_topic s = "system/downtime" ∨
      detect_topic s = "general" := by
  unfold detect_topic
  split
  · exact Or.inl rfl
  · split
    · exact Or.inr (Or.inl rfl)
    · split
      · exact Or.inr (Or.inr (Or.inl rfl))
      · split
        · exact Or.inr (Or.inr (Or.inr (Or.inl rfl)))
        · exact Or.inr (Or.inr (Or.inr (Or.inr rfl)))

theorem simple_sentiment_mem (s : String) :
    simple_sentiment s = "positive" ∨ simple_sentiment s = "negative" ∨
      simple_sentiment s = "neutral" := by
  unfold simple_sentiment
  split
  · exact Or.inl rfl
  · split
    · exact Or.inr (Or.inl rfl)
    · exact Or.inr (Or.inr rfl)

theorem splitWsAcc_append (t : List Char) (h : ∀ c ∈ t, isPySpace c = false) :
    ∀ rest acc : List Char, splitWsAcc (t ++ rest) acc = splitWsAcc rest (t.reverse ++ acc) := by
  induction t with
  | nil => intro rest acc; simp
  | cons c t ih =>
    intro rest acc
    have hc : isPySpace c = false := h c (List.mem_cons_self c t)
    have ht : ∀ x ∈ t, isPySpace x = false := fun x hx => h x (List.mem_cons_of_mem c hx)
    simp [splitWsAcc, hc, ih ht rest (c :: acc), List.reverse_cons, List.append_assoc]

theorem splitWsAcc_tokens_ok : ∀ (l acc : List Char), (∀ c ∈ acc, isPySpace c = false) →
    ∀ t ∈ splitWsAcc l acc, t ≠ [] ∧ ∀ c ∈ t, isPySpace c = false := by
  intro l
  induction l with
  | nil =>
    intro acc hacc t ht
    cases acc with
    | nil => simp [splitWsAcc] at ht
    | cons a as =>
      simp only [splitWsAcc, List.isEmpty_cons, Bool.false_eq_true, if_false,
        List.mem_singleton] at ht
      subst ht
      refine ⟨by simp, ?_⟩
      intro c hc
      exact hacc c (List.mem_reverse.mp hc)
  | cons c cs ih =>
    intro acc hacc t ht
    cases hc : isPySpace c with
    | true =>
      cases acc with
      | nil =>
        simp only [splitWsAcc, hc, if_true, List.isEmpty_nil] at ht
        exact ih [] (by simp) t ht
      | cons a as =>
        simp only [splitWsAcc, hc, if_true, List.isEmpty_cons, Bool.false_eq_true, if_false,
          List.mem_cons] at ht
        rcases ht with rfl | ht
        · refine ⟨by simp, ?_⟩
          intro x hx
          exact hacc x (List.mem_reverse.mp hx)
        · exact ih [] (by simp) t ht
    | false =>
      simp only [splitWsAcc, hc, Bool.false_eq_true, if_false] at ht
      refine ih (c :: acc) ?_ t ht
      intro x hx
      rcases List.mem_cons.mp hx with rfl | hx
      · exact hc
      · exact hacc x hx

theorem splitWs_tokens_ok (l : List Char) :
    ∀ t ∈ splitWs l, t ≠ [] ∧ ∀ c ∈ t, isPySpace c = false :=
  splitWsAcc_tokens_ok l [] (by simp)

theorem splitWs_joinSp (ts : List (List Char))
    (h : ∀ t ∈ ts, t ≠ [] ∧ ∀ c ∈ t, isPySpace c = false) :
    splitWs (joinSp ts) = ts := by
  induction ts with
  | nil => rfl
  | cons t ts ih =>
    have ht := h t (List.mem_cons_self t ts)
    cases ts with
    | nil =>
      show splitWsAcc (joinSp [t]) [] = [t]
      have he : joinSp [t] = t ++ [] := by simp [joinSp]
      rw [he, splitWsAcc_append t ht.2 [] []]
      simp [splitWsAcc, List.isEmpty_eq_true, List.reverse_eq_nil_iff, ht.1]
    | cons t2 ts2 =>
      have he : joinSp (t :: t2 :: ts2) = t ++ (' ' :: joinSp (t2 :: ts2)) := rfl
      show splitWsAcc (joinSp (t :: t2 :: ts2)) [] = t :: t2 :: ts2
      rw [he, splitWsAcc_append t ht.2 (' ' :: joinSp (t2 :: ts2)) []]
      have hsp : isPySpace ' ' = true := by decide
      simp only [List.append_nil, splitWsAcc, hsp, if_true, List.isEmpty_eq_true,
        List.reverse_eq_nil_iff, ht.1, if_false, List.reverse_reverse]
      have : splitWs (joinSp (t2 :: ts2)) = t2 :: ts2 :=
        ih (fun x hx => h x (List.mem_cons_of_mem t hx))
      rw [show splitWsAcc (joinSp (t2 :: ts2)) [] = splitWs (joinSp (t2 :: ts2)) from rfl, this]

theorem summarize_no_trunc (t : String) (n : Nat) (h : (splitWs t.data).length ≤ n) :
    summarize t n = String.mk (joinSp (splitWs t.data)) := by
  unfold summarize
  rw [List.take_of_length_le h, if_neg (Nat.not_lt.mpr h), List.append_nil]

theorem isBoundaryAt_nil : isBoundaryAt [] = false := by decide

theorem truncAtBoundary_all_clear : ∀ l : List Char,
    (∀ i, isBoundaryAt (l.drop i) = false) → truncAtBoundary l = l := by
  intro l
  induction l with
  | nil => intro _; rfl
  | cons c cs ih =>
    intro h
    have h0 : isBoundaryAt (c :: cs) = false := by simpa using h 0
    simp only [truncAtBoundary, h0, Bool.false_eq_true, if_false, List.cons.injEq, true_and]
    exact ih (fun i => by simpa using h (i + 1))

theorem truncAtBoundary_first (l : List Char) : ∀ i : Nat,
    isBoundaryAt (l.drop i) = true → (∀ j, j < i → isBoundaryAt (l.drop j) = false) →
    truncAtBoundary l = l.take i := by
  induction l with
  | nil =>
    intro i h _
    rw [List.drop_nil, isBoundaryAt_nil] at h
    cases h
  | cons c cs ih =>
    intro i h hmin
    cases i with
    | zero =>
      rw [List.drop_zero] at h
      simp [truncAtBoundary, h]
    | succ i =>
      have h0 : isBoundaryAt (c :: cs) = false := by simpa using hmin 0 (Nat.succ_pos i)
      simp only [truncAtBoundary, h0, Bool.false_eq_true, if_false, List.take_succ_cons,
        List.cons.injEq, true_and]
      exact ih i (by simpa using h)
        (fun j hj => by simpa using hmin (j + 1) (Nat.succ_lt_succ hj))

theorem detect_topic_eq_spec (s : String) : detect_topic s = detectTopicSpec s := by
  have e1 : matchesGroup (pyLower s) ["billing", "refund", "pricing"]
      = (inStr "billing".data (pyLower s) || inStr "refund".data (pyLower s)
        || inStr "pricing".data (pyLower s)) := by
    simp [matchesGroup, Bool.or_assoc]
  have e2 : matchesGroup (pyLower s) ["login", "password", "account", "access"]
      = (inStr "login".data (pyLower s) || inStr "password".data (pyLower s)
        || inStr "account".data (pyLower s) || inStr "access".data (pyLower s)) := by
    simp [matchesGroup, Bool.or_assoc]
  have e3 : matchesGroup (pyLower s) ["integration", "api", "crm"]
      = (inStr "integration".data (pyLower s) || inStr "api".data (pyLower s)
        || inStr "crm".data (pyLower s)) := by
    simp [matchesGroup, Bool.or_assoc]
  have e4 : matchesGroup (pyLower s) ["downtime", "system", "outage"]
      = (inStr "downtime".data (pyLower s) || inStr "system".data (pyLower s)
        || inStr "outage".data (pyLower s)) := by
    simp [matchesGroup, Bool.or_assoc]
  unfold detect_topic detectTopicSpec topicTable
  simp only [List.find?, e1, e2, e3, e4]
  cases (inStr "billing".data (pyLower s) || inStr "refund".data (pyLower s)
      || inStr "pricing".data (pyLower s)) <;>
    cases (inStr "login".data (pyLower s) || inStr "password".data (pyLower s)
      || inStr "account".data (pyLower s) || inStr "access".data (pyLower s)) <;>
    cases (inStr "integration".data (pyLower s) || inStr "api".data (pyLower s)
      || inStr "crm".data (pyLower s)) <;>
    cases (inStr "downtime".data (pyLower s) || inStr "system".data (pyLower s)
      || inStr "outage".data (pyLower s)) <;>
    rfl

/-! ## Claims -/

/-- Claim C1: for every input row, `likely_urgency` equals the maximum, under
the total order low < medium < high, of the urgency computed on the subject
and the urgency computed on the cleaned body; e.g. subject "hello" (low) with
body "this is urgent" (high) yields "high". -/
theorem urgency_combining_is_max (key : Option String) (a1 a2 : ApiResult) (r : InputRecord) :
    (enrichRow key a1 a2 r).likely_urgency =
      urgMax (detect_urgency r.subject) (detect_urgency (clean_text r.body)) ∧
    (enrichRow none ApiResult.failure ApiResult.failure
      { sender := "x", subject := "hello", body := "this is urgent" }).likely_urgency =
      "high" := by
  constructor
  · have hmain : (enrichRow key a1 a2 r).likely_urgency =
        (if pyUrgOrder (detect_urgency (clean_text r.body)) ≤
            pyUrgOrder (detect_urgency r.subject)
          then detect_urgency r.subject else detect_urgency (clean_text r.body)) := rfl
    rw [hmain]
    rcases detect_urgency_mem r.subject with hs | hs | hs <;>
      rcases detect_urgency_mem (clean_text r.body) with hb | hb | hb <;>
      rw [hs, hb] <;> decide
  · decide

/-- Claim C2 counterexample: with a credential configured and the first
exchange returning a successful but empty summary, the row keeps the empty
summary verbatim instead of falling back to the deterministic summary, so the
per-field fallback on "empty" returns does not hold. -/
theorem external_empty_summary_kept_cex :
    (enrichRow (some "k") (ApiResult.ok (some "")) (ApiResult.ok none)
      { sender := "A", subject := "s", body := "hello world" }).summary = "" ∧
    summarize (clean_text "hello world") 25 = "hello world" ∧
    ("" : String) ≠ "hello world" := by decide

/-- Claim C2 (amended): the fallback is per-field on absent (`None`) values:
with no credential, or when either exchange raises, the external path yields
`(None, None)` and both fields fall back to the deterministic
summarizer/reply generator; a field that comes back `None` falls back
independently of the other; a successful non-`None` content (even the empty
string) is kept verbatim after stripping.  No failure aborts the batch: the
external path is total and recovers to `(None, None)`. -/
theorem external_fallback_policy (key : Option String) (a1 a2 : ApiResult) (r : InputRecord) :
    (key = none → try_openai_summary_and_reply key a1 a2 (clean_text r.body) = (none, none)) ∧
    (a1 = ApiResult.failure ∨ a2 = ApiResult.failure →
      try_openai_summary_and_reply key a1 a2 (clean_text r.body) = (none, none)) ∧
    ((try_openai_summary_and_reply key a1 a2 (clean_text r.body)).1 = none →
      (enrichRow key a1 a2 r).summary = summarize (clean_text r.body) 25) ∧
    ((try_openai_summary_and_reply key a1 a2 (clean_text r.body)).2 = none →
      (enrichRow key a1 a2 r).auto_reply =
        generate_reply r.sender (detect_topic r.subject)
          (enrichRow key a1 a2 r).likely_urgency) ∧
    (enrichRow (some "k") (ApiResult.ok (some "s1")) (ApiResult.ok (some "r1")) r).summary =
      "s1" ∧
    (enrichRow (some "k") (ApiResult.ok (some "s1")) (ApiResult.ok (some "r1")) r).auto_reply =
      "r1" := by
  refine ⟨?_, ?_, ?_, ?_, rfl, rfl⟩
  · intro hk; subst hk; rfl
  · intro hf
    rcases hf with rfl | rfl
    · cases key <;> cases a2 <;> rfl
    · cases key <;> cases a1 <;> rfl
  · intro h
    have e : (enrichRow key a1 a2 r).summary =
        (match (try_openai_summary_and_reply key a1 a2 (clean_text r.body)).1 with
          | some s => s
          | none => summarize (clean_text r.body) 25) := rfl
    rw [e, h]
  · intro h
    have e : (enrichRow key a1 a2 r).auto_reply =
        (match (try_openai_summary_and_reply key a1 a2 (clean_text r.body)).2 with
          | some rep => rep
          | none => generate_reply r.sender (detect_topic r.subject)
              (enrichRow key a1 a2 r).likely_urgency) := rfl
    rw [e, h]

/-- Claim C2 witness: with no credential a concrete row falls back to the
deterministic summary. -/
theorem external_fallback_policy_witness :
    (enrichRow none ApiResult.failure ApiResult.failure
      { sender := "A", subject := "s", body := "hello world" }).summary =
      summarize (clean_text "hello world") 25 :=
  (external_fallback_policy none ApiResult.failure ApiResult.failure
    { sender := "A", subject := "s", body := "hello world" }).2.2.1 rfl

/-- Claim C3: each classifier is total and returns a member of its declared
enum, and on the empty string the urgency classifier returns low, the topic
classifier general, and the sentiment classifier neutral. -/
theorem classifiers_total_with_defaults (s : String) :
    (detect_urgency s = "low" ∨ detect_urgency s = "medium" ∨ detect_urgency s = "high") ∧
    (detect_topic s = "billing/refund" ∨ detect_topic s = "login/account" ∨
      detect_topic s = "integration/api" ∨ detect_topic s = "system/downtime" ∨
      detect_topic s = "general") ∧
    (simple_sentiment s = "positive" ∨ simple_sentiment s = "negative" ∨
      simple_sentiment s = "neutral") ∧
    detect_urgency "" = "low" ∧ detect_topic "" = "general" ∧
    simple_sentiment "" = "neutral" := by
  refine ⟨?_, detect_topic_mem s, simple_sentiment_mem s, by decide, by decide, by decide⟩
  rcases detect_urgency_mem s with h | h | h
  · exact Or.inr (Or.inr h)
  · exact Or.inr (Or.inl h)
  · exact Or.inl h

/-- Claim C4: the topic classifier realises the declarative priority table
(first matching keyword group wins, else general), and a text containing both
"billing" and "login" resolves to billing/refund. -/
theorem topic_priority_order (s u : String)
    (hb : inStr "billing".data (pyLower u) = true)
    (hl : inStr "login".data (pyLower u) = true) :
    detect_topic s = detectTopicSpec s ∧ detect_topic u = "billing/refund" := by
  refine ⟨detect_topic_eq_spec s, ?_⟩
  unfold detect_topic
  simp [hb]

/-- Claim C4 witness: at the concrete subject "billing login". -/
theorem topic_priority_order_witness :
    detect_topic "billing login" = detectTopicSpec "billing login" ∧
    detect_topic "billing login" = "billing/refund" :=
  topic_priority_order "billing login" "billing login" (by decide) (by decide)

set_option maxRecDepth 8192 in
/-- Claim C5: `generate_reply` returns exactly one of the three fixed spec §6
templates selected by urgency (high, medium, else-default) with sender and
topic interpolated; with urgency high, sender Alice and topic billing/refund
it reproduces the high-urgency template verbatim. -/
theorem reply_template_exact (sender topic urgency : String) :
    generate_reply sender topic urgency = replySpec sender topic urgency ∧
    generate_reply "Alice" "billing/refund" "high" =
      "Dear Alice,\n\nWe understand your issue is urgent regarding billing/refund. Our team is already working on it and will update you shortly.\n\nBest regards,\nSupport Team" :=
  ⟨rfl, by decide⟩

/-- Claim C6 counterexample: the ellipsis marker is appended with no
preceding space, so the claimed value "a b c d e ..." is not the output. -/
theorem summarize_ellipsis_space_cex :
    summarize "a b c d e f" 5 ≠ "a b c d e ..." := by decide

/-- Claim C6 (amended): the summarizer keeps the first `max_words`
whitespace-split tokens joined by single spaces, appends the ellipsis marker
directly (no separating space) exactly when the original token count exceeds
`max_words`, and returns the empty string for empty input; in particular
summarize "a b c" 5 = "a b c" and summarize "a b c d e f" 5 = "a b c d e...". -/
theorem summarize_truncation (t u : String) (n m : Nat)
    (h : (splitWs t.data).length ≤ n) (hg : m < (splitWs u.data).length) :
    summarize t n = String.mk (joinSp (splitWs t.data)) ∧
    summarize u m = String.mk (joinSp ((splitWs u.data).take m) ++ "...".data) ∧
    summarize "" n = "" ∧
    summarize "a b c" 5 = "a b c" ∧
    summarize "a b c d e f" 5 = "a b c d e..." := by
  refine ⟨summarize_no_trunc t n h, ?_, ?_, by decide, by decide⟩
  · unfold summarize
    rw [if_pos hg]
  · have h0 : splitWs ("" : String).data = [] := rfl
    unfold summarize
    rw [h0, List.take_nil]
    simp only [joinSp, List.nil_append, List.length_nil]
    rw [if_neg (Nat.not_lt_zero n)]

/-- Claim C6 witness: at the concrete inputs "a b" (kept whole, bound 5) and
"a b c" (truncated to one token, bound 1). -/
theorem summarize_truncation_witness :
    summarize "a b" 5 = String.mk (joinSp (splitWs ("a b" : String).data)) ∧
    summarize "a b c" 1 =
      String.mk (joinSp ((splitWs ("a b c" : String).data).take 1) ++ "...".data) ∧
    summarize "" 5 = "" ∧
    summarize "a b c" 5 = "a b c" ∧
    summarize "a b c d e f" 5 = "a b c d e..." :=
  summarize_truncation "a b" "a b c" 5 1 (by decide) (by decide)

/-- Claim C7 counterexample: a line starting with "Regards," as the very
first line of the text is not a boundary for the code (the regex alternatives
all require a preceding newline), so the claimed truncation at a first-line
marker fails: the text is returned whole instead of empty. -/
theorem clean_text_first_line_marker_cex :
    clean_text "Regards,\nJohn" = "Regards,\nJohn" ∧
    ("Regards,\nJohn" : String) ≠ "" := by decide

/-- Claim C7 (amended): the normaliser collapses CRLF to LF, collapses runs
of two or more newlines to one blank line, then truncates at the first
boundary occurrence — a "--" line or a line starting with "Regards,",
"Best,", "Thanks," — where the marker must be preceded by a newline (so a
marker on the first line does not count, and a final "--" line with no
following newline does not count), keeping only the text before it, and trims
surrounding whitespace; when no boundary occurs the whole normalised text is
kept.  E.g. "Hello\n\nPlease help\nRegards,\nJohn" normalises to
"Hello\n\nPlease help". -/
theorem clean_text_boundary_truncation (raw raw2 : String) (i : Nat)
    (hbd : isBoundaryAt ((normNewlines raw).drop i) = true)
    (hmin : ∀ j, j < i → isBoundaryAt ((normNewlines raw).drop j) = false)
    (hclear : ∀ j, j < (normNewlines raw2).length →
      isBoundaryAt ((normNewlines raw2).drop j) = false) :
    clean_text raw = String.mk (stripWs ((normNewlines raw).take i)) ∧
    clean_text raw2 = String.mk (stripWs (normNewlines raw2)) ∧
    clean_text "Hello\n\nPlease help\nRegards,\nJohn" = "Hello\n\nPlease help" ∧
    clean_text "Regards,\nJohn" = "Regards,\nJohn" ∧
    clean_text "x\n--" = "x\n--" := by
  refine ⟨?_, ?_, by decide, by decide, by decide⟩
  · unfold clean_text
    rw [truncAtBoundary_first (normNewlines raw) i hbd hmin]
  · have hall : ∀ j, isBoundaryAt ((normNewlines raw2).drop j) = false := by
      intro j
      by_cases hj : j < (normNewlines raw2).length
      · exact hclear j hj
      · rw [List.drop_eq_nil_of_le (Nat.le_of_not_lt hj), isBoundaryAt_nil]
    unfold clean_text
    rw [truncAtBoundary_all_clear (normNewlines raw2) hall]

/-- Claim C7 witness: the spec's example truncates at index 18 (the newline
before "Regards,"), and "a b" is boundary-free and kept whole. -/
theorem clean_text_boundary_truncation_witness :
    clean_text "Hello\n\nPlease help\nRegards,\nJohn" =
      String.mk (stripWs ((normNewlines "Hello\n\nPlease help\nRegards,\nJohn").take 18)) ∧
    clean_text "a b" = String.mk (stripWs (normNewlines "a b")) ∧
    clean_text "Hello\n\nPlease help\nRegards,\nJohn" = "Hello\n\nPlease help" ∧
    clean_text "Regards,\nJohn" = "Regards,\nJohn" ∧
    clean_text "x\n--" = "x\n--" :=
  clean_text_boundary_truncation "Hello\n\nPlease help\nRegards,\nJohn" "a b" 18
    (by decide) (by decide) (by decide)

/-- Claim C8 counterexample: in the spec's end-to-end row the body has no
newline before "Regards,", so the code does not truncate it: `clean_body` is
the whole body, not "I am blocked, please help,". -/
theorem end_to_end_bob_clean_body_cex :
    (enrichRow none ApiResult.failure ApiResult.failure
      { sender := "Bob", subject := "URGENT: login issue",
        body := "I am blocked, please help, Regards, Bob" }).clean_body ≠
      "I am blocked, please help," := by decide

/-- Claim C8 (amended): for the row {sender Bob, subject "URGENT: login
issue", body "I am blocked, please help, Regards, Bob"} the enriched output
has clean_body equal to the whole body (the signature is not on its own
line), urg_subj high, urg_body high and likely_urgency high. -/
theorem end_to_end_bob_row :
    (enrichRow none ApiResult.failure ApiResult.failure
      { sender := "Bob", subject := "URGENT: login issue",
        body := "I am blocked, please help, Regards, Bob" }).clean_body =
      "I am blocked, please help, Regards, Bob" ∧
    (enrichRow none ApiResult.failure ApiResult.failure
      { sender := "Bob", subject := "URGENT: login issue",
        body := "I am blocked, please help, Regards, Bob" }).urg_subj = "high" ∧
    (enrichRow none ApiResult.failure ApiResult.failure
      { sender := "Bob", subject := "URGENT: login issue",
        body := "I am blocked, please help, Regards, Bob" }).urg_body = "high" ∧
    (enrichRow none ApiResult.failure ApiResult.failure
      { sender := "Bob", subject := "URGENT: login issue",
        body := "I am blocked, please help, Regards, Bob" }).likely_urgency = "high" := by
  decide

/-- Claim C9 counterexample: `subject_topic` is computed from the raw
subject, not the cleaned subject: on subject "\nRegards,\nlogin" the output
column is login/account while the topic of the cleaned subject is general. -/
theorem subject_topic_raw_subject_cex :
    (enrichRow none ApiResult.failure ApiResult.failure
      { sender := "s", subject := "\nRegards,\nlogin", body := "" }).subject_topic =
      "login/account" ∧
    detect_topic (clean_text "\nRegards,\nlogin") = "general" ∧
    ("login/account" : String) ≠ "general" := by decide

/-- Claim C9 (amended): for every input row the `subject_topic` column equals
the topic classifier applied to the raw (uncleaned) subject. -/
theorem subject_topic_from_raw_subject (key : Option String) (a1 a2 : ApiResult)
    (r : InputRecord) :
    (enrichRow key a1 a2 r).subject_topic = detect_topic r.subject := rfl

/-- Claim C10: the summarizer output is the whitespace-split tokens joined by
single spaces (here in the untruncated case), summarize is idempotent on
inputs whose token count is within the bound, and it is not the identity on
untruncated inputs containing newlines: summarize "a\nb" 5 = "a b". -/
theorem summarize_idempotent_on_untruncated (t : String) (n : Nat)
    (h : (splitWs t.data).length ≤ n) :
    summarize t n = String.mk (joinSp (splitWs t.data)) ∧
    summarize (summarize t n) n = summarize t n ∧
    summarize "a\nb" 5 = "a b" ∧ ("a b" : String) ≠ "a\nb" := by
  have h1 := summarize_no_trunc t n h
  refine ⟨h1, ?_, by decide, by decide⟩
  have hrt : splitWs (joinSp (splitWs t.data)) = splitWs t.data :=
    splitWs_joinSp (splitWs t.data) (splitWs_tokens_ok t.data)
  have h2 : (String.mk (joinSp (splitWs t.data))).data = joinSp (splitWs t.data) := rfl
  have h3 : (splitWs (String.mk (joinSp (splitWs t.data))).data).length ≤ n := by
    rw [h2, hrt]; exact h
  rw [h1, summarize_no_trunc _ n h3, h2, hrt]

/-- Claim C10 witness: at the concrete input "hello world" with bound 25. -/
theorem summarize_idempotent_on_untruncated_witness :
    summarize "hello world" 25 = String.mk (joinSp (splitWs ("hello world" : String).data)) ∧
    summarize (summarize "hello world" 25) 25 = summarize "hello world" 25 ∧
    summarize "a\nb" 5 = "a b" ∧ ("a b" : String) ≠ "a\nb" :=
  summarize_idempotent_on_untruncated "hello world" 25 (by decide)
